import Mathlib

/-!
Verification of the task-automation core of the `mcps` repository:
browser resource pool, selective CONNECT proxy, condition poller,
task runner retry policy, chained-task orchestrator, task restart and
screenshot store.  Each definition is a shallow embedding of the
corresponding JavaScript function; theorems settle the spec claims.
-/

namespace Spec2Proof

/-! ## String helpers

JS `String.prototype.includes` (substring containment), modelled over
character lists. -/

/-- `startsWithChars s pat` is true when `pat` is an initial segment of `s`. -/
def startsWithChars : List Char → List Char → Bool
  | _, [] => true
  | [], _ :: _ => false
  | a :: as, b :: bs => a == b && startsWithChars as bs

/-- `containsChars pat s` is true when `pat` occurs contiguously inside `s`. -/
def containsChars (pat : List Char) : List Char → Bool
  | [] => pat.isEmpty
  | a :: as => startsWithChars (a :: as) pat || containsChars pat as

/-- JS `s.includes(pat)`. -/
def strContains (s pat : String) : Bool := containsChars pat.data s.data

/-! ## Browser pool (src/browser/engine/proxy.js, createBrowserPool)

The pool object's mutable fields become a state record.  Browser handles
and process ids are drawn from a fresh-name counter `nextId` (each
`puppeteer.launch` yields a new OS process, hence a new pid).  Wall-clock
time is an explicit `now : Nat` argument (JS `Date.now()`); the armed
idle-eviction timer is stored as its absolute fire time.  Whether the
cached browser answers the `browser.pages()` liveness probe is an input
`alive : Bool`.  The `urlHistory`/`taskHistory` diagnostic ring buffers
are not modelled (no claim mentions them). -/

/-- Value returned by `getBrowser`: `{ browser, pid, cached }`. -/
structure GetResult where
  browser : Option Nat
  pid : Option Nat
  cached : Bool
deriving Repr, DecidableEq

/-- Mutable fields of the pool object returned by `createBrowserPool`. -/
structure PoolState where
  browser : Option Nat
  pid : Option Nat
  lastUsed : Option Nat
  createdAt : Option Nat
  inUse : Bool
  /-- absolute time at which the armed idle timer fires; `none` = no timer -/
  idleTimer : Option Nat
  /-- fresh-name source for newly launched browser handles / pids -/
  nextId : Nat
deriving Repr, DecidableEq

/-- `idleTimeout: 5 * 60 * 1000` (close browser after 5 minutes idle). -/
def idleTimeout : Nat := 5 * 60 * 1000

/-- `maxAge: 10 * 60 * 1000` (force new browser after 10 minutes). -/
def maxAge : Nat := 10 * 60 * 1000

/-- The pool as initialised by `createBrowserPool()`. -/
def initialPool : PoolState :=
  { browser := none, pid := none, lastUsed := none, createdAt := none
    inUse := false, idleTimer := none, nextId := 0 }

/-- The `puppeteer.launch` tail of `getBrowser`: construct a fresh browser,
record pid, `createdAt`, `lastUsed`, set `inUse = true`, return
`cached = false`. -/
def launchBrowser (now : Nat) (s : PoolState) : PoolState × GetResult :=
  let id := s.nextId
  ({ s with browser := some id, pid := some id, lastUsed := some now
            createdAt := some now, inUse := true, nextId := id + 1 },
   { browser := some id, pid := some id, cached := false })

/-- `getBrowser(browserArgs, log)`: cancel any pending idle timer; if a
cached browser exists and its age exceeds `maxAge`, destroy it and launch
anew; otherwise probe liveness (`browser.pages()`, input `alive`) and on
success return the cached handle with `cached = true`; a failed probe also
falls through to a fresh launch. -/
def getBrowser (now : Nat) (alive : Bool) (s : PoolState) : PoolState × GetResult :=
  let s0 : PoolState := { s with idleTimer := none }
  match s0.browser with
  | some b =>
    let age := now - s0.createdAt.getD 0
    if age > maxAge then
      launchBrowser now { s0 with browser := none, pid := none }
    else if alive then
      ({ s0 with lastUsed := some now, inUse := true },
       { browser := some b, pid := s0.pid, cached := true })
    else
      launchBrowser now { s0 with browser := none, pid := none }
  | none => launchBrowser now s0

/-- `release(log)`: clear `inUse`, stamp `lastUsed`, replace any pending
idle timer with one firing `idleTimeout` from now. -/
def release (now : Nat) (s : PoolState) : PoolState :=
  { s with inUse := false, lastUsed := some now, idleTimer := some (now + idleTimeout) }

/-- The armed idle timer's callback: if the pool is not in use and holds a
browser, close it and clear the entry.  The timer is spent afterwards. -/
def fireIdleTimer (s : PoolState) : PoolState :=
  if !s.inUse && s.browser.isSome then
    { s with browser := none, pid := none, idleTimer := none }
  else
    { s with idleTimer := none }

/-- `getStatus().hasInstance = !!this.browser`. -/
def hasInstance (s : PoolState) : Bool := s.browser.isSome

/-- Well-formedness: every handle/pid ever handed out is below the
fresh-name counter, so a fresh launch cannot collide with them. -/
def poolWF (s : PoolState) : Prop :=
  (∀ b, s.browser = some b → b < s.nextId) ∧ (∀ p, s.pid = some p → p < s.nextId)

instance (s : PoolState) : Decidable (poolWF s) := by
  unfold poolWF
  cases s.browser <;> cases s.pid <;>
    exact inferInstanceAs (Decidable _)

/-! ## Selective proxy (src/browser/engine/proxy.js, createSelectiveProxy)

Per-CONNECT routing decision.  The handler first tests the destination
hostname against the `macProxyDomains` substring allowlist; a match is
tunneled via `connectViaMac` with no direct attempt.  Otherwise a direct
`net.connect` is attempted; its outcome is an input.  On a direct error
whose `code` is `ENOTFOUND` or `EAI_AGAIN` the handler falls back to
`connectViaMac` once; on any other error it ends the client with 502.
`connectViaMac` itself never attempts a direct connection nor a second
tunnel, so the model records the ordered list of connection attempts. -/

/-- One connection attempt made on behalf of a CONNECT request. -/
inductive Attempt
  | direct
  | tunnel
deriving Repr, DecidableEq

/-- Outcome of the direct `net.connect` attempt: success, or an error
carrying its `code`. -/
inductive DirectResult
  | success
  | fail (code : String)
deriving Repr, DecidableEq

/-- `e.code === 'ENOTFOUND' || e.code === 'EAI_AGAIN'`. -/
def isDnsError (code : String) : Bool :=
  code == "ENOTFOUND" || code == "EAI_AGAIN"

/-- Ordered connection attempts the `connect` handler makes for one
CONNECT request to `hostname`, given the direct attempt's outcome. -/
def connectAttempts (macProxyDomains : List String) (hostname : String)
    (directResult : DirectResult) : List Attempt :=
  let useMacProxy := macProxyDomains.any (fun d => strContains hostname d)
  if useMacProxy then
    [Attempt.tunnel]
  else
    match directResult with
    | DirectResult.success => [Attempt.direct]
    | DirectResult.fail code =>
      if isDnsError code then [Attempt.direct, Attempt.tunnel]
      else [Attempt.direct]

/-! ## Condition poller (pollForCondition)

`checkFn` is abstracted as `check : Nat → Except String Bool`: on attempt
`i` it either throws a message or returns its `ready` flag.  The loop
counts attempts up to `maxAttempts = ceil(timeout / interval)`, resets the
consecutive-error counter on success, aborts on a fatal-classified
message, and aborts after 5 consecutive transient errors.  Alongside the
result we return the number of `check` invocations performed. -/

/-- Fatal message fragments checked by the poller. -/
def fatalErrors : List String :=
  ["detached Frame", "Session closed", "Target closed", "Browser disconnected", "not defined"]

/-- Final result of `pollForCondition` (the `ready`/`fatalError`/
`tooManyErrors`/`timedOut` shapes of the returned object). -/
inductive PollResult
  | ready (attempt : Nat)
  | fatalError (msg : String)
  | tooManyErrors (msg : String)
  | timedOut
deriving Repr, DecidableEq

/-- `Math.ceil(timeout / interval)` on positive integers. -/
def maxAttemptsFor (timeout interval : Nat) : Nat :=
  (timeout + interval - 1) / interval

/-- The poll loop from iteration `i` with `consecutiveErrors` errors so
far; returns the result and the total number of `check` invocations. -/
def pollAux (check : Nat → Except String Bool) (maxAttempts : Nat)
    (i consecutiveErrors : Nat) : PollResult × Nat :=
  if _h : i < maxAttempts then
    match check i with
    | Except.ok r =>
      if r then (PollResult.ready i, i + 1)
      else pollAux check maxAttempts (i + 1) 0
    | Except.error msg =>
      if fatalErrors.any (fun e => strContains msg e) then
        (PollResult.fatalError msg, i + 1)
      else if consecutiveErrors + 1 ≥ 5 then
        (PollResult.tooManyErrors msg, i + 1)
      else
        pollAux check maxAttempts (i + 1) (consecutiveErrors + 1)
  else
    (PollResult.timedOut, i)
termination_by maxAttempts - i

/-- `pollForCondition(checkFn, {timeout, interval})`. -/
def pollForCondition (check : Nat → Except String Bool)
    (timeout interval : Nat) : PollResult × Nat :=
  pollAux check (maxAttemptsFor timeout interval) 0 0

/-! ## Task status and Janus task runner retry policy (runJanusTask)

`status` values of the task lifecycle state machine. -/

inductive Status
  | pending
  | running
  | completed
  | error
  | stopped
deriving Repr, DecidableEq

/-- The task fields runJanusTask's control flow reads and writes.  Log
lines and screenshots are side channels no retry claim depends on and are
not modelled here. -/
structure JanusTask where
  status : Status
  error : Option String
  result : Option String
  endTime : Option Nat
  idl_branch : String
deriving Repr, DecidableEq

/-- `MAX_RETRIES = 3` in runJanusTask. -/
def MAX_RETRIES : Nat := 3

/-- `runJanusTask(taskId, task, retryCount)`.  The page-automation body
(everything from browser acquisition through `handleDeployment`) is
abstracted as `logic : Nat → Option String`: on attempt number `n` it
either succeeds (`none`) or throws an error with message `some msg`.  On
success the task completes.  On a cookie/SSO message the task errors with
no retry.  On an `Execution context was destroyed` message with
`retryCount < MAX_RETRIES` the browser is closed and the runner re-invokes
itself with `retryCount + 1` (after a fixed 2s backoff, untimed here).
Any other outcome goes to the generic `handleTaskError`, which sets
`status = error` and `error = message`.  The second component counts the
attempts performed. -/
def runJanusTask (logic : Nat → Option String) (now : Nat) (t : JanusTask)
    (retryCount : Nat) : JanusTask × Nat :=
  match logic retryCount with
  | none =>
    ({ t with status := Status.completed
              result := some ("IDL branch updated to " ++ t.idl_branch)
              endTime := some now }, 1)
  | some msg =>
    if strContains msg "refresh cookies" || strContains msg "Not logged in" then
      ({ t with status := Status.error, error := some msg, endTime := some now }, 1)
    else if _h : strContains msg "Execution context was destroyed"
        ∧ retryCount < MAX_RETRIES then
      let r := runJanusTask logic now t (retryCount + 1)
      (r.1, r.2 + 1)
    else
      ({ t with status := Status.error, error := some msg, endTime := some now }, 1)
termination_by MAX_RETRIES - retryCount
decreasing_by
  have := _h.2
  unfold MAX_RETRIES at *
  omega

/-! ## Chained task orchestrator (createChainedTaskRunner.runChainedTask)

A subtask record carries its own copy of the lifecycle fields.  Each
subtask is delegated to a task runner under a synthetic temp task; the
runner's effect on that temp task is abstracted as a `RunOutcome`.
Timestamps are an abstract `now : Nat`; the orchestrator's console/log
lines are side channels no claim depends on and are not modelled. -/

structure Subtask where
  type : String
  psm : Option String
  env : Option String
  idl_branch : Option String
  idl_version : Option String
  api_group_id : Option String
  status : Status
  logs : List String
  startTime : Option Nat
  endTime : Option Nat
  error : Option String
  result : Option String
  stage : Option String
deriving Repr, DecidableEq

/-- Temp-task type resolution:
`subtask.type === 'janus' ? 'janus_mini_update' : subtask.type === 'workorder' ? 'janus_workorder_execute' : subtask.type`. -/
def resolveType (t : String) : String :=
  if t == "janus" then "janus_mini_update"
  else if t == "workorder" then "janus_workorder_execute"
  else t

/-- Whether a resolved type has a runner in the orchestrator's dispatch. -/
def isKnownType (rtype : String) : Bool :=
  rtype == "janus_mini_update" || rtype == "janus_workorder_execute"

/-- Result of delegating one subtask to a task runner: the final fields of
the temp task (`ret`), or the runner throwing (`raise`). -/
inductive RunOutcome
  | ret (status : Status) (error : Option String) (result : Option String)
        (logs : List String) (stage : Option String) (endTime : Option Nat)
  | raise (msg : String)
deriving Repr, DecidableEq

/-- The outcome observed for subtask `i` of resolved type `rtype`: the
janus runner runs for `janus_mini_update`, the workorder runner for
`janus_workorder_execute`, and for any other type no runner is invoked at
all, so the temp task stays exactly as initialised (`status: 'running'`,
empty logs, no error/result/stage/endTime). -/
def subOutcome (runJanus runWorkorder : Nat → RunOutcome) (i : Nat)
    (rtype : String) : RunOutcome :=
  if rtype == "janus_mini_update" then runJanus i
  else if rtype == "janus_workorder_execute" then runWorkorder i
  else RunOutcome.ret Status.running none none [] none none

/-- The parent chained task's fields used by the orchestrator. -/
structure ChainTask where
  name : String
  status : Status
  stage : Option String
  error : Option String
  result : Option String
  currentIndex : Nat
  startTime : Option Nat
  endTime : Option Nat
  subtasks : List Subtask
deriving Repr, DecidableEq

/-- The subtask loop of `runChainedTask`, from absolute index `i`, with
the already-processed subtasks accumulated (reversed) in `done` and the
indices whose runner was invoked accumulated in `inv`.  Mirrors the
`for` loop: set `currentIndex` and `stage`, mark the subtask running,
delegate (or skip an unknown type), copy the temp task's results back,
abort the chain on a subtask `error` or a thrown exception with a message
citing `i + 1`, and otherwise continue; after the last subtask the parent
completes. -/
def runChainAux (runJanus runWorkorder : Nat → RunOutcome) (now total : Nat) :
    Nat → ChainTask → List Subtask → List Nat → List Subtask → ChainTask × List Nat
  | _i, t, done, inv, [] =>
    ({ t with subtasks := done.reverse
              status := Status.completed
              stage := some "All subtasks completed"
              endTime := some now
              result := some ("Completed " ++ toString total ++ " subtasks") }, inv)
  | i, t, done, inv, st :: rest =>
    let t1 : ChainTask :=
      { t with
          currentIndex := i
          stage := some ("Running subtask " ++ toString (i + 1) ++ "/" ++ toString total) }
    let st1 : Subtask := { st with status := Status.running, startTime := some now }
    let rtype := resolveType st.type
    let inv1 := if isKnownType rtype then inv ++ [i] else inv
    match subOutcome runJanus runWorkorder i rtype with
    | RunOutcome.raise msg =>
      let st2 : Subtask := { st1 with status := Status.error
                                      error := some msg, endTime := some now }
      ({ t1 with subtasks := done.reverse ++ st2 :: rest
                 status := Status.error
                 error := some ("Subtask " ++ toString (i + 1) ++ " exception: " ++ msg)
                 endTime := some now }, inv1)
    | RunOutcome.ret stStatus stError stResult stLogs stStage stEnd =>
      let st2 : Subtask := { st1 with status := stStatus, logs := stLogs
                                      endTime := some (stEnd.getD now), error := stError
                                      result := stResult, stage := stStage }
      if stStatus = Status.error then
        ({ t1 with subtasks := done.reverse ++ st2 :: rest
                   status := Status.error
                   error := some ("Subtask " ++ toString (i + 1) ++ " failed: "
                     ++ stError.getD "null")
                   endTime := some now }, inv1)
      else
        runChainAux runJanus runWorkorder now total (i + 1) t1 (st2 :: done) inv1 rest

/-- `runChainedTask(taskId, task)`: run the loop over `task.subtasks`,
also reporting the list of subtask indices whose runner was invoked. -/
def runChainedTask (runJanus runWorkorder : Nat → RunOutcome) (now : Nat)
    (t : ChainTask) : ChainTask × List Nat :=
  runChainAux runJanus runWorkorder now t.subtasks.length 0 t [] [] t.subtasks

/-! ## Task restart (src/browser/routes/tasks.js, POST /api/tasks/:id/restart)

The restart route's task-state reset, for a request with no field
updates in its body.  A running task is rejected (HTTP 400, modelled as
`none`).  Otherwise the parent is set `running` with cleared terminal
fields and fresh logs; a task carrying subtasks additionally has every
subtask reset to `pending` and `currentIndex` reset to 0.  The route then
clears the task's screenshots (modelled in the screenshot store below)
and dispatches the matching runner. -/

structure RestartTask where
  id : String
  type : String
  isChained : Bool
  status : Status
  stage : Option String
  error : Option String
  result : Option String
  startTime : Option Nat
  endTime : Option Nat
  logs : List String
  subtasks : Option (List Subtask)
  currentIndex : Nat
deriving Repr, DecidableEq

/-- Per-subtask reset performed by the restart route. -/
def resetSubtaskForRestart (st : Subtask) : Subtask :=
  { st with status := Status.pending, logs := [], startTime := none
            endTime := none, error := none, result := none }

/-- The restart route's state reset. -/
def restartTask (now : Nat) (t : RestartTask) : Option RestartTask :=
  if t.status = Status.running then none
  else
    let t1 : RestartTask :=
      { t with status := Status.running, error := none, startTime := some now
               endTime := none, logs := ["Task restarted"] }
    some (match t1.subtasks with
      | some subs =>
        { t1 with
            subtasks := some (subs.map resetSubtaskForRestart)
            currentIndex := 0 }
      | none => t1)

/-- Which runner the restart route dispatches to after resetting:
`task.isChained || task.subtasks` selects the chained runner, then the
task type selects the workorder or janus runner. -/
def restartRunnerChoice (t : RestartTask) : String :=
  if t.isChained || t.subtasks.isSome then "chained"
  else if t.type == "janus_workorder_execute" then "workorder"
  else "janus"

/-! ## Screenshot store (createTaskUtils.addScreenshot; restart clears it)

`addScreenshot` reads the task's stored list, assigns
`index = current count`, appends, and persists under that index; the
restart route replaces the list with `[]` (and deletes the persisted
rows).  The store for one task id is the list of stored labels. -/

/-- Operations on one task's screenshot list. -/
inductive SSOp
  | add (label : String)
  | restartClear
deriving Repr, DecidableEq

/-- Run the operations over the task's stored screenshot list, returning
the final list and the indices assigned by `add` operations, in order. -/
def applySSOps : List SSOp → List String → List String × List Nat
  | [], store => (store, [])
  | SSOp.add label :: ops, store =>
    let index := store.length
    let res := applySSOps ops (store ++ [label])
    (res.1, index :: res.2)
  | SSOp.restartClear :: ops, _store => applySSOps ops []

/-- A freshly created subtask spec of the given type, as built by the
task-creation route (`status: 'pending'`, everything else empty). -/
def sampleSubtask (ty : String) : Subtask :=
  { type := ty, psm := none, env := none, idl_branch := none, idl_version := none
    api_group_id := none, status := Status.pending, logs := [], startTime := none
    endTime := none, error := none, result := none, stage := none }

/-- `getBrowser` always begins by cancelling any pending idle-eviction
timer, and no later step of it re-arms one. -/
theorem getBrowser_clears_idleTimer (now : Nat) (alive : Bool) (s : PoolState) :
    (getBrowser now alive s).1.idleTimer = none := by
  unfold getBrowser launchBrowser
  obtain ⟨br, pid, lu, ca, iu, it, ni⟩ := s
  cases br
  · rfl
  · dsimp only
    split
    · rfl
    · split <;> rfl

/-- Unfolding lemma: a subtask whose delegated run ends in a non-`error`
status (including an unknown type's untouched `running` status) has its
results copied back and the loop continues with the next subtask. -/
theorem runChainAux_ret_continue (runJanus runWorkorder : Nat → RunOutcome)
    (now total i : Nat) (t : ChainTask) (done : List Subtask) (inv : List Nat)
    (st : Subtask) (rest : List Subtask) (stStatus : Status)
    (stError stResult : Option String) (stLogs : List String)
    (stStage : Option String) (stEnd : Option Nat)
    (hout : subOutcome runJanus runWorkorder i (resolveType st.type)
      = RunOutcome.ret stStatus stError stResult stLogs stStage stEnd)
    (hne : stStatus ≠ Status.error) :
    runChainAux runJanus runWorkorder now total i t done inv (st :: rest)
      = runChainAux runJanus runWorkorder now total (i + 1)
          { t with
              currentIndex := i
              stage := some ("Running subtask " ++ toString (i + 1) ++ "/" ++ toString total) }
          ({ st with
               status := stStatus, startTime := some now, logs := stLogs
               endTime := some (stEnd.getD now), error := stError
               result := stResult, stage := stStage } :: done)
          (if isKnownType (resolveType st.type) then inv ++ [i] else inv) rest := by
  rw [runChainAux]
  dsimp only
  rw [hout]
  dsimp only
  rw [if_neg hne]

/-- Unfolding lemma: the first subtask whose delegated run ends in status
`error` aborts the chain, leaving the parent in `error` with a message
citing the 1-based subtask number, the remaining subtasks untouched. -/
theorem runChainAux_ret_error (runJanus runWorkorder : Nat → RunOutcome)
    (now total i : Nat) (t : ChainTask) (done : List Subtask) (inv : List Nat)
    (st : Subtask) (rest : List Subtask)
    (stError stResult : Option String) (stLogs : List String)
    (stStage : Option String) (stEnd : Option Nat)
    (hout : subOutcome runJanus runWorkorder i (resolveType st.type)
      = RunOutcome.ret Status.error stError stResult stLogs stStage stEnd) :
    runChainAux runJanus runWorkorder now total i t done inv (st :: rest)
      = ({ t with
             currentIndex := i
             stage := some ("Running subtask " ++ toString (i + 1) ++ "/" ++ toString total)
             subtasks := done.reverse ++
               { st with
                   status := Status.error, startTime := some now, logs := stLogs
                   endTime := some (stEnd.getD now), error := stError
                   result := stResult, stage := stStage } :: rest
             status := Status.error
             error := some ("Subtask " ++ toString (i + 1) ++ " failed: "
               ++ stError.getD "null")
             endTime := some now },
         if isKnownType (resolveType st.type) then inv ++ [i] else inv) := by
  rw [runChainAux]
  dsimp only
  rw [hout]
  dsimp only
  rw [if_pos rfl]

/-- A subtask whose resolved type has no runner in the dispatch yields the
untouched temp task: `status: 'running'`, no logs/error/result/stage/endTime. -/
theorem subOutcome_unknown (runJanus runWorkorder : Nat → RunOutcome) (i : Nat)
    (rtype : String) (h : isKnownType rtype = false) :
    subOutcome runJanus runWorkorder i rtype
      = RunOutcome.ret Status.running none none [] none none := by
  have h' := h
  unfold isKnownType at h'
  rw [Bool.or_eq_false_iff] at h'
  unfold subOutcome
  rw [if_neg (by simp [h'.1]), if_neg (by simp [h'.2])]

/-- Runners that complete every delegated run make every known-typed
subtask's outcome `completed`. -/
theorem subOutcome_const_completed (i : Nat) (rtype : String)
    (hkn : isKnownType rtype = true) :
    subOutcome (fun _ => RunOutcome.ret Status.completed none none [] none none)
               (fun _ => RunOutcome.ret Status.completed none none [] none none)
               i rtype
      = RunOutcome.ret Status.completed none none [] none none := by
  unfold subOutcome
  by_cases h : (rtype == "janus_mini_update") = true
  · rw [if_pos h]
  · rw [if_neg h]
    unfold isKnownType at hkn
    rw [Bool.or_eq_true] at hkn
    rcases hkn with h1 | h2
    · exact absurd h1 h
    · rw [if_pos h2]

/-- Loop invariant for `runChainAux`: if every remaining subtask with a
known (dispatchable) resolved type completes, the loop (1) completes the
parent, (2) only ever invokes runners for known-typed indices, (3) leaves
every unknown-typed subtask with the untouched-copy record — in
particular `status = running` — (4) preserves the already-processed
prefix, and (5) preserves the number of subtasks. -/
theorem runChainAux_all_completed (runJanus runWorkorder : Nat → RunOutcome)
    (now total : Nat) :
    ∀ (rest : List Subtask) (i : Nat) (t : ChainTask) (done : List Subtask)
      (inv : List Nat),
    (∀ j st, rest[j]? = some st → isKnownType (resolveType st.type) = true →
      ∃ e r lg sg en, subOutcome runJanus runWorkorder (i + j) (resolveType st.type)
        = RunOutcome.ret Status.completed e r lg sg en) →
    (runChainAux runJanus runWorkorder now total i t done inv rest).1.status
        = Status.completed ∧
    (∀ x, x ∈ (runChainAux runJanus runWorkorder now total i t done inv rest).2 →
      x ∈ inv ∨ ∃ j st, rest[j]? = some st ∧ x = i + j ∧
        isKnownType (resolveType st.type) = true) ∧
    (∀ j st, rest[j]? = some st → isKnownType (resolveType st.type) = false →
      (runChainAux runJanus runWorkorder now total i t done inv
          rest).1.subtasks[done.length + j]?
        = some { st with
                   status := Status.running, startTime := some now, logs := []
                   endTime := some now, error := none, result := none
                   stage := none }) ∧
    (∀ k, k < done.length →
      (runChainAux runJanus runWorkorder now total i t done inv rest).1.subtasks[k]?
        = done.reverse[k]?) ∧
    (runChainAux runJanus runWorkorder now total i t done inv rest).1.subtasks.length
      = done.length + rest.length := by
  intro rest
  induction rest with
  | nil =>
    intro i t done inv _hall
    rw [runChainAux]
    refine ⟨rfl, ?_, ?_, ?_, ?_⟩
    · intro x hx
      exact Or.inl hx
    · intro j st hj
      simp at hj
    · intro k _hk
      rfl
    · simp
  | cons st rest ih =>
    intro i t done inv hall
    have h0 : (st :: rest)[0]? = some st := by simp
    have hrec : ∀ j st2, rest[j]? = some st2 →
        isKnownType (resolveType st2.type) = true →
        ∃ e r lg sg en,
          subOutcome runJanus runWorkorder (i + 1 + j) (resolveType st2.type)
            = RunOutcome.ret Status.completed e r lg sg en := by
      intro j st2 hj hkn
      have := hall (j + 1) st2 (by simpa using hj) hkn
      have harith : i + (j + 1) = i + 1 + j := by omega
      rwa [harith] at this
    cases hk : isKnownType (resolveType st.type) with
    | true =>
      obtain ⟨e, r, lg, sg, en, hout⟩ := hall 0 st h0 hk
      rw [Nat.add_zero] at hout
      rw [runChainAux_ret_continue _ _ _ _ _ _ _ _ _ _ _ _ _ _ _ _ hout (by decide)]
      rw [hk, if_pos rfl]
      obtain ⟨ih1, ih2, ih3, ih4, ih5⟩ := ih (i + 1) _ _ (inv ++ [i]) hrec
      refine ⟨ih1, ?_, ?_, ?_, ?_⟩
      · intro x hx
        rcases ih2 x hx with hin | ⟨j, st2, hj, hxj, hknj⟩
        · rcases List.mem_append.mp hin with hin1 | hin2
          · exact Or.inl hin1
          · refine Or.inr ⟨0, st, h0, ?_, hk⟩
            simp at hin2
            omega
        · exact Or.inr ⟨j + 1, st2, by simpa using hj, by omega, hknj⟩
      · intro j st2 hj hknj
        rcases j with _ | j
        · rw [h0] at hj
          cases hj
          rw [hk] at hknj
          cases hknj
        · have hj' : rest[j]? = some st2 := by simpa using hj
          have := ih3 j st2 hj' hknj
          have harith : done.length + (j + 1) = (
            { st with
                status := Status.completed, startTime := some now, logs := lg
                endTime := some (en.getD now), error := e
                result := r, stage := sg } :: done).length + j := by
            simp
            omega
          rw [harith]
          exact this
      · intro k hkd
        have := ih4 k (by simp; omega)
        rw [this]
        have hlen : k < done.reverse.length := by simpa using hkd
        simp [List.getElem?_append_left hlen]
      · rw [ih5]
        simp
        omega
    | false =>
      have hout := subOutcome_unknown runJanus runWorkorder i
        (resolveType st.type) hk
      rw [runChainAux_ret_continue _ _ _ _ _ _ _ _ _ _ _ _ _ _ _ _ hout (by decide)]
      rw [hk, if_neg (by simp)]
      obtain ⟨ih1, ih2, ih3, ih4, ih5⟩ := ih (i + 1) _ _ inv hrec
      refine ⟨ih1, ?_, ?_, ?_, ?_⟩
      · intro x hx
        rcases ih2 x hx with hin | ⟨j, st2, hj, hxj, hknj⟩
        · exact Or.inl hin
        · exact Or.inr ⟨j + 1, st2, by simpa using hj, by omega, hknj⟩
      · intro j st2 hj hknj
        rcases j with _ | j
        · rw [h0] at hj
          cases hj
          have hpos := ih4 done.length (by simp)
          have hidx : done.length + 0 = done.length := rfl
          rw [hidx, hpos, List.reverse_cons, List.getElem?_append_right (by simp)]
          simp
        · have hj' : rest[j]? = some st2 := by simpa using hj
          have := ih3 j st2 hj' hknj
          have harith : done.length + (j + 1) = (
            { st with
                status := Status.running, startTime := some now, logs := []
                endTime := some ((none : Option Nat).getD now), error := none
                result := none, stage := none } :: done).length + j := by
            simp
            omega
          rw [harith]
          exact this
      · intro k hkd
        have := ih4 k (by simp; omega)
        rw [this]
        have hlen : k < done.reverse.length := by simpa using hkd
        simp [List.getElem?_append_left hlen]
      · rw [ih5]
        simp
        omega

/-- Unfolding lemma for the retry branch: a transient-navigation failure
with retry budget left re-invokes the runner at `retryCount + 1` and adds
one to the attempt count. -/
theorem runJanus_transient_step (logic : Nat → Option String) (now : Nat)
    (t : JanusTask) (retryCount : Nat) (msg : String)
    (hmsg : logic retryCount = some msg)
    (h1 : strContains msg "Execution context was destroyed" = true)
    (h2 : strContains msg "refresh cookies" = false)
    (h3 : strContains msg "Not logged in" = false)
    (hrc : retryCount < MAX_RETRIES) :
    runJanusTask logic now t retryCount
      = ((runJanusTask logic now t (retryCount + 1)).1,
         (runJanusTask logic now t (retryCount + 1)).2 + 1) := by
  rw [runJanusTask, hmsg]
  dsimp only
  rw [if_neg (by simp [h2, h3]), dif_pos ⟨h1, hrc⟩]

/-- Unfolding lemma for the exhausted branch: a transient-navigation
failure with no retry budget left goes to the generic handler, which
records the raw error message. -/
theorem runJanus_exhausted (logic : Nat → Option String) (now : Nat)
    (t : JanusTask) (retryCount : Nat) (msg : String)
    (hmsg : logic retryCount = some msg)
    (h2 : strContains msg "refresh cookies" = false)
    (h3 : strContains msg "Not logged in" = false)
    (hrc : ¬ retryCount < MAX_RETRIES) :
    runJanusTask logic now t retryCount
      = ({ t with status := Status.error, error := some msg, endTime := some now }, 1) := by
  rw [runJanusTask, hmsg]
  dsimp only
  rw [if_neg (by simp [h2, h3]), dif_neg (fun h => hrc h.2)]

end Spec2Proof

namespace Spec2Proof

/-- With no restart among the operations, the indices assigned by the
`add` operations are exactly `store.length, store.length + 1, …`, and the
store grows by one entry per `add`. -/
theorem applySSOps_no_restart (ops : List SSOp) :
    ∀ store : List String, SSOp.restartClear ∉ ops →
      (applySSOps ops store).2 = List.range' store.length ops.length ∧
      (applySSOps ops store).1.length = store.length + ops.length := by
  induction ops with
  | nil =>
    intro store _h
    exact ⟨rfl, by simp [applySSOps]⟩
  | cons op ops ih =>
    intro store h
    have hop : op ≠ SSOp.restartClear := fun he => h (he ▸ List.mem_cons_self _ _)
    have hops : SSOp.restartClear ∉ ops := fun hm => h (List.mem_cons_of_mem _ hm)
    cases op with
    | restartClear => exact absurd rfl hop
    | add label =>
      obtain ⟨ih1, ih2⟩ := ih (store ++ [label]) hops
      rw [applySSOps]
      refine ⟨?_, ?_⟩
      · dsimp only
        rw [ih1, List.length_cons, List.range'_succ]
        simp
      · dsimp only
        rw [ih2]
        simp
        omega

/-- C1: refuted as stated — with a live, fresh cached browser held
`inUse = true` and no intervening `release`, a second `getBrowser` call is
granted the very same entry (`cached = true`, same handle). -/
theorem c1_counterexample :
    (getBrowser 0 true initialPool).1.inUse = true ∧
    (getBrowser 0 true initialPool).2.browser = some 0 ∧
    (getBrowser 1000 true (getBrowser 0 true initialPool).1).2.cached = true ∧
    (getBrowser 1000 true (getBrowser 0 true initialPool).1).2.browser = some 0 := by
  decide

/-- C1 (amended): the pool does not enforce exclusivity.  A `getBrowser`
call made while the cached entry is `inUse = true` (entry alive and not
past `maxAge`) is granted that same entry rather than blocked, and leaves
`inUse = true`; among the pool operations only `release` clears `inUse` —
callers must coordinate acquisition themselves. -/
theorem c1_pool_not_exclusive (s : PoolState) (b now : Nat)
    (hb : s.browser = some b) (_hu : s.inUse = true)
    (hage : now - s.createdAt.getD 0 ≤ maxAge) :
    (getBrowser now true s).2.cached = true ∧
    (getBrowser now true s).2.browser = some b ∧
    (getBrowser now true s).1.inUse = true ∧
    (∀ t, (release t s).inUse = false) := by
  have hnot : ¬ (now - s.createdAt.getD 0 > maxAge) := Nat.not_lt.mpr hage
  unfold getBrowser
  simp [hb, hnot, release]

/-- Witness for C1 (amended): a concrete second acquisition while in use. -/
theorem c1_pool_not_exclusive_witness :
    (getBrowser 1000 true (getBrowser 0 true initialPool).1).2.cached = true ∧
    (getBrowser 1000 true (getBrowser 0 true initialPool).1).2.browser = some 0 ∧
    (getBrowser 1000 true (getBrowser 0 true initialPool).1).1.inUse = true ∧
    (∀ t, (release t (getBrowser 0 true initialPool).1).inUse = false) :=
  c1_pool_not_exclusive ((getBrowser 0 true initialPool).1) 0 1000
    (by decide) (by decide) (by decide)

/-- C6: a cached entry strictly older than `maxAge` is never returned:
`getBrowser` destroys it and launches a fresh browser, returning a fresh
handle with a new process id (distinct from the old one) and
`cached = false`. -/
theorem c6_max_age_eviction (s : PoolState) (b now : Nat) (alive : Bool)
    (hb : s.browser = some b) (hwf : poolWF s)
    (hage : maxAge < now - s.createdAt.getD 0) :
    (getBrowser now alive s).2.cached = false ∧
    (getBrowser now alive s).2.browser = some s.nextId ∧
    (getBrowser now alive s).2.pid = some s.nextId ∧
    (getBrowser now alive s).2.pid ≠ s.pid ∧
    (getBrowser now alive s).1.createdAt = some now := by
  have key : getBrowser now alive s
      = launchBrowser now { s with idleTimer := none, browser := none, pid := none } := by
    unfold getBrowser
    simp [hb, hage]
  rw [key]
  refine ⟨rfl, rfl, rfl, ?_, rfl⟩
  rcases hp : s.pid with _ | p
  · simp [launchBrowser]
  · have hlt := hwf.2 p hp
    simp [launchBrowser]
    omega

/-- Witness for C6: an 11-minutes-old entry (maxAge is 10 minutes) is
evicted and a fresh pid is produced. -/
theorem c6_max_age_eviction_witness :
    (getBrowser 660000 true (getBrowser 0 true initialPool).1).2.cached = false ∧
    (getBrowser 660000 true (getBrowser 0 true initialPool).1).2.browser
      = some (getBrowser 0 true initialPool).1.nextId ∧
    (getBrowser 660000 true (getBrowser 0 true initialPool).1).2.pid
      = some (getBrowser 0 true initialPool).1.nextId ∧
    (getBrowser 660000 true (getBrowser 0 true initialPool).1).2.pid
      ≠ (getBrowser 0 true initialPool).1.pid ∧
    (getBrowser 660000 true (getBrowser 0 true initialPool).1).1.createdAt = some 660000 :=
  c6_max_age_eviction ((getBrowser 0 true initialPool).1) 0 660000 true
    (by decide) (by decide) (by decide)

/-- C7: refuted as stated — re-acquiring before the idle timer fires does
cancel the pending eviction, but it does not always return the same
process id: with the pool's own constants (`idleTimeout` 5 min, `maxAge`
10 min), a browser launched at t=0, released at t=360000 (timer armed for
t=660000) and re-acquired at t=650000 — before the timer fires — is past
`maxAge`, so a *new* pid is returned with `cached = false`. -/
theorem c7_counterexample :
    (release 360000 (getBrowser 0 true initialPool).1).idleTimer = some 660000 ∧
    650000 < 660000 ∧
    (getBrowser 650000 true (release 360000 (getBrowser 0 true initialPool).1)).1.idleTimer
      = none ∧
    (getBrowser 650000 true (release 360000 (getBrowser 0 true initialPool).1)).2.cached
      = false ∧
    (getBrowser 650000 true (release 360000 (getBrowser 0 true initialPool).1)).2.pid
      ≠ (release 360000 (getBrowser 0 true initialPool).1).pid := by
  decide

/-- C7 (amended): after `release` at `trel` an idle-eviction timer is armed
for `trel + idleTimeout`; if it fires with no intervening acquisition the
entry is destroyed (`hasInstance = false`); any `getBrowser` call cancels
the pending timer, and — provided the entry is alive and not past
`maxAge` at the time of re-acquisition — the same cached handle with the
same process id is returned.  The timer is replaced, not accumulated, on
each release. -/
theorem c7_idle_eviction (s : PoolState) (b trel tacq : Nat)
    (hb : s.browser = some b)
    (hage : tacq - s.createdAt.getD 0 ≤ maxAge) :
    (release trel s).idleTimer = some (trel + idleTimeout) ∧
    (release trel s).inUse = false ∧
    hasInstance (fireIdleTimer (release trel s)) = false ∧
    (∀ t al, (getBrowser t al (release trel s)).1.idleTimer = none) ∧
    (getBrowser tacq true (release trel s)).2.cached = true ∧
    (getBrowser tacq true (release trel s)).2.browser = some b ∧
    (getBrowser tacq true (release trel s)).2.pid = s.pid := by
  have hnot : ¬ (tacq - s.createdAt.getD 0 > maxAge) := Nat.not_lt.mpr hage
  refine ⟨rfl, rfl, ?_, fun t al => getBrowser_clears_idleTimer t al _, ?_⟩
  · simp [fireIdleTimer, release, hasInstance, hb]
  · unfold getBrowser
    simp [release, hb, hnot]

/-- C2: in runChainedTask, the first subtask finishing in status `error`
immediately terminates the parent in `error` with a message citing the
failing subtask (1-based, so 0-based index 1 is cited as `Subtask 2`) and
its error message; no later subtask is started: for a chain `[A, B, C]`
where `B` fails, `C`'s runner is never invoked and `C`'s record is left
untouched. -/
theorem c2_chain_abort (runJanus runWorkorder : Nat → RunOutcome) (now : Nat)
    (t : ChainTask) (A B C : Subtask) (m : String)
    (eA rA : Option String) (lA : List String) (gA : Option String) (nA : Option Nat)
    (rB : Option String) (lB : List String) (gB : Option String) (nB : Option Nat)
    (hsubs : t.subtasks = [A, B, C])
    (hAk : isKnownType (resolveType A.type) = true)
    (hA : subOutcome runJanus runWorkorder 0 (resolveType A.type)
      = RunOutcome.ret Status.completed eA rA lA gA nA)
    (hBk : isKnownType (resolveType B.type) = true)
    (hB : subOutcome runJanus runWorkorder 1 (resolveType B.type)
      = RunOutcome.ret Status.error (some m) rB lB gB nB) :
    (runChainedTask runJanus runWorkorder now t).1.status = Status.error ∧
    (runChainedTask runJanus runWorkorder now t).1.error
      = some ("Subtask 2 failed: " ++ m) ∧
    (runChainedTask runJanus runWorkorder now t).2 = [0, 1] ∧
    (runChainedTask runJanus runWorkorder now t).1.currentIndex = 1 ∧
    (runChainedTask runJanus runWorkorder now t).1.subtasks.length = 3 ∧
    (runChainedTask runJanus runWorkorder now t).1.subtasks[2]? = some C := by
  unfold runChainedTask
  rw [hsubs]
  rw [runChainAux_ret_continue _ _ _ _ _ _ _ _ _ _ _ _ _ _ _ _ hA (by decide)]
  rw [runChainAux_ret_error _ _ _ _ _ _ _ _ _ _ _ _ _ _ _ hB]
  rw [hAk, hBk]
  simp
  rfl

/-- Witness for C2: a concrete 3-subtask chain whose second subtask fails
with message `boom`. -/
theorem c2_chain_abort_witness :
    (runChainedTask
      (fun i => if i == 0
        then RunOutcome.ret Status.completed none (some "ok") [] none none
        else RunOutcome.ret Status.error (some "boom") none [] none none)
      (fun _ => RunOutcome.ret Status.completed none none [] none none) 5
      { name := "chain", status := Status.running, stage := none, error := none
        result := none, currentIndex := 0, startTime := some 5, endTime := none
        subtasks := [sampleSubtask "janus", sampleSubtask "janus", sampleSubtask "workorder"] }).1.status
      = Status.error ∧
    (runChainedTask
      (fun i => if i == 0
        then RunOutcome.ret Status.completed none (some "ok") [] none none
        else RunOutcome.ret Status.error (some "boom") none [] none none)
      (fun _ => RunOutcome.ret Status.completed none none [] none none) 5
      { name := "chain", status := Status.running, stage := none, error := none
        result := none, currentIndex := 0, startTime := some 5, endTime := none
        subtasks := [sampleSubtask "janus", sampleSubtask "janus", sampleSubtask "workorder"] }).1.error
      = some ("Subtask 2 failed: " ++ "boom") ∧
    (runChainedTask
      (fun i => if i == 0
        then RunOutcome.ret Status.completed none (some "ok") [] none none
        else RunOutcome.ret Status.error (some "boom") none [] none none)
      (fun _ => RunOutcome.ret Status.completed none none [] none none) 5
      { name := "chain", status := Status.running, stage := none, error := none
        result := none, currentIndex := 0, startTime := some 5, endTime := none
        subtasks := [sampleSubtask "janus", sampleSubtask "janus", sampleSubtask "workorder"] }).2
      = [0, 1] ∧
    (runChainedTask
      (fun i => if i == 0
        then RunOutcome.ret Status.completed none (some "ok") [] none none
        else RunOutcome.ret Status.error (some "boom") none [] none none)
      (fun _ => RunOutcome.ret Status.completed none none [] none none) 5
      { name := "chain", status := Status.running, stage := none, error := none
        result := none, currentIndex := 0, startTime := some 5, endTime := none
        subtasks := [sampleSubtask "janus", sampleSubtask "janus", sampleSubtask "workorder"] }).1.currentIndex
      = 1 ∧
    (runChainedTask
      (fun i => if i == 0
        then RunOutcome.ret Status.completed none (some "ok") [] none none
        else RunOutcome.ret Status.error (some "boom") none [] none none)
      (fun _ => RunOutcome.ret Status.completed none none [] none none) 5
      { name := "chain", status := Status.running, stage := none, error := none
        result := none, currentIndex := 0, startTime := some 5, endTime := none
        subtasks := [sampleSubtask "janus", sampleSubtask "janus", sampleSubtask "workorder"] }).1.subtasks.length
      = 3 ∧
    (runChainedTask
      (fun i => if i == 0
        then RunOutcome.ret Status.completed none (some "ok") [] none none
        else RunOutcome.ret Status.error (some "boom") none [] none none)
      (fun _ => RunOutcome.ret Status.completed none none [] none none) 5
      { name := "chain", status := Status.running, stage := none, error := none
        result := none, currentIndex := 0, startTime := some 5, endTime := none
        subtasks := [sampleSubtask "janus", sampleSubtask "janus", sampleSubtask "workorder"] }).1.subtasks[2]?
      = some (sampleSubtask "workorder") :=
  c2_chain_abort
    (fun i => if i == 0
      then RunOutcome.ret Status.completed none (some "ok") [] none none
      else RunOutcome.ret Status.error (some "boom") none [] none none)
    (fun _ => RunOutcome.ret Status.completed none none [] none none) 5
    { name := "chain", status := Status.running, stage := none, error := none
      result := none, currentIndex := 0, startTime := some 5, endTime := none
      subtasks := [sampleSubtask "janus", sampleSubtask "janus", sampleSubtask "workorder"] }
    (sampleSubtask "janus") (sampleSubtask "janus") (sampleSubtask "workorder") "boom"
    none (some "ok") [] none none none [] none none
    rfl (by decide) (by decide) (by decide) (by decide)

/-- C8: restarting a non-running task carrying subtasks (in particular a
completed chain) resets every subtask to `pending` with cleared
logs/error/result/startTime/endTime, resets `currentIndex` to 0, clears
the parent's `error` and `endTime`, gives it fresh logs and a fresh
`startTime`, sets it `running` while keeping the same id, and dispatches
the chained runner. -/
theorem c8_restart_resets (t : RestartTask) (now : Nat) (subs : List Subtask)
    (hnr : t.status ≠ Status.running)
    (hsubs : t.subtasks = some subs) :
    restartTask now t
      = some { t with
                 status := Status.running, error := none, startTime := some now
                 endTime := none, logs := ["Task restarted"]
                 subtasks := some (subs.map resetSubtaskForRestart)
                 currentIndex := 0 } ∧
    (∀ st, st ∈ subs.map resetSubtaskForRestart →
      st.status = Status.pending ∧ st.logs = [] ∧ st.startTime = none ∧
      st.endTime = none ∧ st.error = none ∧ st.result = none) ∧
    restartRunnerChoice t = "chained" := by
  refine ⟨?_, ?_, ?_⟩
  · unfold restartTask
    rw [if_neg hnr]
    simp [hsubs]
  · intro st hst
    rcases List.mem_map.mp hst with ⟨st0, _, rfl⟩
    exact ⟨rfl, rfl, rfl, rfl, rfl, rfl⟩
  · unfold restartRunnerChoice
    simp [hsubs]

/-- Witness for C8: restarting a concrete completed chain. -/
theorem c8_restart_resets_witness :
    restartTask 11
      { id := "t1", type := "chained", isChained := true, status := Status.completed
        stage := some "done", error := some "old", result := some "r"
        startTime := some 1, endTime := some 2, logs := ["l1", "l2"]
        subtasks := some [{ sampleSubtask "janus" with
                              status := Status.completed, logs := ["sl"]
                              startTime := some 1, endTime := some 2
                              error := some "se", result := some "sr" }]
        currentIndex := 1 }
      = some { id := "t1", type := "chained", isChained := true
               status := Status.running, stage := some "done", error := none
               result := some "r", startTime := some 11, endTime := none
               logs := ["Task restarted"]
               subtasks := some [resetSubtaskForRestart
                 { sampleSubtask "janus" with
                     status := Status.completed, logs := ["sl"]
                     startTime := some 1, endTime := some 2
                     error := some "se", result := some "sr" }]
               currentIndex := 0 } ∧
    (∀ st, st ∈ [{ sampleSubtask "janus" with
                     status := Status.completed, logs := ["sl"]
                     startTime := some 1, endTime := some 2
                     error := some "se", result := some "sr" }].map
        resetSubtaskForRestart →
      st.status = Status.pending ∧ st.logs = [] ∧ st.startTime = none ∧
      st.endTime = none ∧ st.error = none ∧ st.result = none) ∧
    restartRunnerChoice
      { id := "t1", type := "chained", isChained := true, status := Status.completed
        stage := some "done", error := some "old", result := some "r"
        startTime := some 1, endTime := some 2, logs := ["l1", "l2"]
        subtasks := some [{ sampleSubtask "janus" with
                              status := Status.completed, logs := ["sl"]
                              startTime := some 1, endTime := some 2
                              error := some "se", result := some "sr" }]
        currentIndex := 1 } = "chained" :=
  c8_restart_resets
    { id := "t1", type := "chained", isChained := true, status := Status.completed
      stage := some "done", error := some "old", result := some "r"
      startTime := some 1, endTime := some 2, logs := ["l1", "l2"]
      subtasks := some [{ sampleSubtask "janus" with
                            status := Status.completed, logs := ["sl"]
                            startTime := some 1, endTime := some 2
                            error := some "se", result := some "sr" }]
      currentIndex := 1 }
    11
    [{ sampleSubtask "janus" with
         status := Status.completed, logs := ["sl"]
         startTime := some 1, endTime := some 2
         error := some "se", result := some "sr" }]
    (by decide) rfl

/-- C9: refuted as stated — the screenshot sequence is append-only and
indices equal the current count within a run, but restart clears the
stored list (`screenshots.set(taskId, [])`), after which `addScreenshot`
assigns index 0 again for the same task id: the assigned-index sequence
for add, restart, add is `[0, 0]`, reusing index 0. -/
theorem c9_counterexample :
    (applySSOps [SSOp.add "a", SSOp.restartClear, SSOp.add "b"] []).2 = [0, 0] ∧
    ¬ (applySSOps [SSOp.add "a", SSOp.restartClear, SSOp.add "b"] []).2.Nodup := by
  decide

/-- C9 (amended): within a single run — any sequence of `addScreenshot`
operations with no intervening restart — each `addScreenshot` assigns
index equal to the current count of stored screenshots, so the assigned
indices are `count, count+1, …`, strictly increasing and never reused;
a restart clears the task's screenshot list (and its persisted rows) and
index assignment starts over from 0. -/
theorem c9_indices_monotone (ops : List SSOp) (store : List String)
    (h : SSOp.restartClear ∉ ops) :
    (applySSOps ops store).2 = List.range' store.length ops.length ∧
    List.Pairwise (· < ·) (applySSOps ops store).2 ∧
    (applySSOps ops store).2.Nodup := by
  obtain ⟨h1, _h2⟩ := applySSOps_no_restart ops store h
  refine ⟨h1, ?_, ?_⟩
  · rw [h1]
    exact List.pairwise_lt_range' store.length ops.length
  · rw [h1]
    exact List.nodup_range' store.length ops.length

/-- Witness for C9 (amended): two adds with one screenshot already stored
assign indices 1 and 2. -/
theorem c9_indices_monotone_witness :
    (applySSOps [SSOp.add "x", SSOp.add "y"] ["s0"]).2 = List.range' 1 2 ∧
    List.Pairwise (· < ·) (applySSOps [SSOp.add "x", SSOp.add "y"] ["s0"]).2 ∧
    (applySSOps [SSOp.add "x", SSOp.add "y"] ["s0"]).2.Nodup :=
  c9_indices_monotone [SSOp.add "x", SSOp.add "y"] ["s0"] (by decide)

/-- C10: a subtask whose resolved type is neither `janus_mini_update` nor
`janus_workorder_execute` gets no runner invocation; its copied-back
status is `running` (neither `completed` nor `error`), the chain does not
abort there, and when every known-typed subtask completes the parent
still transitions to `completed` even though that subtask never
executed. -/
theorem c10_unknown_type_skipped (runJanus runWorkorder : Nat → RunOutcome)
    (now : Nat) (t : ChainTask) (k : Nat) (stk : Subtask)
    (hk : t.subtasks[k]? = some stk)
    (hunk : isKnownType (resolveType stk.type) = false)
    (hall : ∀ j st, t.subtasks[j]? = some st →
      isKnownType (resolveType st.type) = true →
      ∃ e r lg sg en, subOutcome runJanus runWorkorder j (resolveType st.type)
        = RunOutcome.ret Status.completed e r lg sg en) :
    (runChainedTask runJanus runWorkorder now t).1.status = Status.completed ∧
    k ∉ (runChainedTask runJanus runWorkorder now t).2 ∧
    (runChainedTask runJanus runWorkorder now t).1.subtasks[k]?
      = some { stk with
                 status := Status.running, startTime := some now, logs := []
                 endTime := some now, error := none, result := none
                 stage := none } ∧
    (runChainedTask runJanus runWorkorder now t).1.subtasks.length
      = t.subtasks.length := by
  unfold runChainedTask
  obtain ⟨h1, h2, h3, _h4, h5⟩ :=
    runChainAux_all_completed runJanus runWorkorder now t.subtasks.length
      t.subtasks 0 t [] []
      (by
        intro j st hj hkn
        have := hall j st hj hkn
        simpa using this)
  refine ⟨h1, ?_, ?_, by simpa using h5⟩
  · intro hx
    rcases h2 k hx with hin | ⟨j, st, hj, hkj, hknj⟩
    · simp at hin
    · have hjk : j = k := by omega
      subst hjk
      rw [hk] at hj
      cases hj
      rw [hunk] at hknj
      cases hknj
  · have := h3 k stk hk hunk
    simpa using this

/-- Witness for C10: a 3-subtask chain whose middle subtask has the
unhandled type `custom_noop`; with runners that complete everything else,
the parent completes, index 1 is never invoked, and the middle subtask's
final status is `running`. -/
theorem c10_unknown_type_skipped_witness :
    (runChainedTask
      (fun _ => RunOutcome.ret Status.completed none none [] none none)
      (fun _ => RunOutcome.ret Status.completed none none [] none none) 9
      { name := "chain", status := Status.running, stage := none, error := none
        result := none, currentIndex := 0, startTime := some 9, endTime := none
        subtasks := [sampleSubtask "janus", sampleSubtask "custom_noop",
          sampleSubtask "workorder"] }).1.status = Status.completed ∧
    1 ∉ (runChainedTask
      (fun _ => RunOutcome.ret Status.completed none none [] none none)
      (fun _ => RunOutcome.ret Status.completed none none [] none none) 9
      { name := "chain", status := Status.running, stage := none, error := none
        result := none, currentIndex := 0, startTime := some 9, endTime := none
        subtasks := [sampleSubtask "janus", sampleSubtask "custom_noop",
          sampleSubtask "workorder"] }).2 ∧
    (runChainedTask
      (fun _ => RunOutcome.ret Status.completed none none [] none none)
      (fun _ => RunOutcome.ret Status.completed none none [] none none) 9
      { name := "chain", status := Status.running, stage := none, error := none
        result := none, currentIndex := 0, startTime := some 9, endTime := none
        subtasks := [sampleSubtask "janus", sampleSubtask "custom_noop",
          sampleSubtask "workorder"] }).1.subtasks[1]?
      = some { sampleSubtask "custom_noop" with
                 status := Status.running, startTime := some 9, logs := []
                 endTime := some 9, error := none, result := none
                 stage := none } ∧
    (runChainedTask
      (fun _ => RunOutcome.ret Status.completed none none [] none none)
      (fun _ => RunOutcome.ret Status.completed none none [] none none) 9
      { name := "chain", status := Status.running, stage := none, error := none
        result := none, currentIndex := 0, startTime := some 9, endTime := none
        subtasks := [sampleSubtask "janus", sampleSubtask "custom_noop",
          sampleSubtask "workorder"] }).1.subtasks.length
      = ({ name := "chain", status := Status.running, stage := none, error := none
           result := none, currentIndex := 0, startTime := some 9, endTime := none
           subtasks := [sampleSubtask "janus", sampleSubtask "custom_noop",
             sampleSubtask "workorder"] } : ChainTask).subtasks.length :=
  c10_unknown_type_skipped
    (fun _ => RunOutcome.ret Status.completed none none [] none none)
    (fun _ => RunOutcome.ret Status.completed none none [] none none) 9
    { name := "chain", status := Status.running, stage := none, error := none
      result := none, currentIndex := 0, startTime := some 9, endTime := none
      subtasks := [sampleSubtask "janus", sampleSubtask "custom_noop",
        sampleSubtask "workorder"] }
    1 (sampleSubtask "custom_noop") (by simp [sampleSubtask]) (by decide)
    (fun j st _hj hkn =>
      ⟨none, none, [], none, none, subOutcome_const_completed j _ hkn⟩)

/-- C3: refuted in one conjunct — a task whose automation logic always
raises `Execution context was destroyed` does terminate in `error` after
exactly `MAX_RETRIES + 1 = 4` attempts, but the terminal transition does
not cite retries-exhausted: the recorded error is the raw transient
message, which mentions neither retries nor exhaustion. -/
theorem c3_counterexample :
    runJanusTask (fun _ => some "Execution context was destroyed") 7
      { status := Status.running, error := none, result := none
        endTime := none, idl_branch := "feature" } 0
      = ({ status := Status.error, error := some "Execution context was destroyed"
           result := none, endTime := some 7, idl_branch := "feature" }, 4) ∧
    strContains "Execution context was destroyed" "retries" = false ∧
    strContains "Execution context was destroyed" "exhausted" = false := by
  have h1 : strContains "Execution context was destroyed"
      "Execution context was destroyed" = true := by decide
  have h2 : strContains "Execution context was destroyed" "refresh cookies" = false := by
    decide
  have h3 : strContains "Execution context was destroyed" "Not logged in" = false := by
    decide
  refine ⟨?_, by decide, by decide⟩
  rw [runJanus_transient_step _ _ _ 0 _ rfl h1 h2 h3 (by decide),
      runJanus_transient_step _ _ _ 1 _ rfl h1 h2 h3 (by decide),
      runJanus_transient_step _ _ _ 2 _ rfl h1 h2 h3 (by decide),
      runJanus_exhausted _ _ _ 3 _ rfl h2 h3 (by decide)]

/-- C3 (amended): if the automation logic raises a transient-navigation
error (message containing `Execution context was destroyed`, not a
cookie/SSO message) on every attempt, the runner re-invokes itself with
attempt+1 while `attempt < MAX_RETRIES = 3`, and otherwise transitions the
task to `error` carrying the transient error's own raw message (no
retries-exhausted citation), so the task terminates in `error` after
exactly `MAX_RETRIES + 1` attempts, never more. -/
theorem c3_retry_ceiling (logic : Nat → Option String) (now : Nat) (t : JanusTask)
    (hlog : ∀ n, ∃ msg, logic n = some msg ∧
        strContains msg "Execution context was destroyed" = true ∧
        strContains msg "refresh cookies" = false ∧
        strContains msg "Not logged in" = false) :
    (runJanusTask logic now t 0).2 = MAX_RETRIES + 1 ∧
    (runJanusTask logic now t 0).1.status = Status.error ∧
    (runJanusTask logic now t 0).1.error = logic MAX_RETRIES := by
  obtain ⟨m0, hm0, a0, b0, c0⟩ := hlog 0
  obtain ⟨m1, hm1, a1, b1, c1⟩ := hlog 1
  obtain ⟨m2, hm2, a2, b2, c2⟩ := hlog 2
  obtain ⟨m3, hm3, a3, b3, c3⟩ := hlog 3
  rw [runJanus_transient_step _ _ _ 0 _ hm0 a0 b0 c0 (by decide),
      runJanus_transient_step _ _ _ 1 _ hm1 a1 b1 c1 (by decide),
      runJanus_transient_step _ _ _ 2 _ hm2 a2 b2 c2 (by decide),
      runJanus_exhausted _ _ _ 3 _ hm3 b3 c3 (by decide)]
  exact ⟨rfl, rfl, hm3.symm⟩

/-- Witness for C3 (amended): a concrete always-transient logic makes
exactly 4 attempts and records the raw message. -/
theorem c3_retry_ceiling_witness :
    (runJanusTask (fun _ => some "Execution context was destroyed: nav") 0
      { status := Status.running, error := none, result := none
        endTime := none, idl_branch := "b" } 0).2 = MAX_RETRIES + 1 ∧
    (runJanusTask (fun _ => some "Execution context was destroyed: nav") 0
      { status := Status.running, error := none, result := none
        endTime := none, idl_branch := "b" } 0).1.status = Status.error ∧
    (runJanusTask (fun _ => some "Execution context was destroyed: nav") 0
      { status := Status.running, error := none, result := none
        endTime := none, idl_branch := "b" } 0).1.error
      = (fun _ => some "Execution context was destroyed: nav") MAX_RETRIES :=
  c3_retry_ceiling (fun _ => some "Execution context was destroyed: nav") 0
    { status := Status.running, error := none, result := none
      endTime := none, idl_branch := "b" }
    (fun _ => ⟨"Execution context was destroyed: nav", rfl,
      by decide, by decide, by decide⟩)

/-- C4: a destination matching the tunnel allowlist (substring match) is
routed through the tunnel and never attempted directly; a non-matching
destination is attempted directly first, is retried through the tunnel
exactly once if and only if the direct attempt fails with a DNS-resolution
error code (`ENOTFOUND`/`EAI_AGAIN`), and other direct errors end the
request with no tunnel attempt; no request ever makes more than one
tunnel attempt. -/
theorem c4_proxy_routing (macProxyDomains : List String) (hostname code : String) :
    (macProxyDomains.any (fun d => strContains hostname d) = true →
      ∀ dr, connectAttempts macProxyDomains hostname dr = [Attempt.tunnel]) ∧
    (macProxyDomains.any (fun d => strContains hostname d) = false →
      connectAttempts macProxyDomains hostname DirectResult.success = [Attempt.direct] ∧
      (isDnsError code = true →
        connectAttempts macProxyDomains hostname (DirectResult.fail code)
          = [Attempt.direct, Attempt.tunnel]) ∧
      (isDnsError code = false →
        connectAttempts macProxyDomains hostname (DirectResult.fail code)
          = [Attempt.direct])) ∧
    (∀ dr, (connectAttempts macProxyDomains hostname dr).count Attempt.tunnel ≤ 1) := by
  refine ⟨?_, ?_, ?_⟩
  · intro h dr
    simp [connectAttempts, h]
  · intro h
    refine ⟨by simp [connectAttempts, h], ?_, ?_⟩
    · intro hd
      simp [connectAttempts, h, hd]
    · intro hd
      simp [connectAttempts, h, hd]
  · intro dr
    cases hm : macProxyDomains.any (fun d => strContains hostname d) with
    | true =>
        have hv : connectAttempts macProxyDomains hostname dr = [Attempt.tunnel] := by
          simp [connectAttempts, hm]
        rw [hv]; decide
    | false =>
        cases dr with
        | success =>
            have hv : connectAttempts macProxyDomains hostname DirectResult.success
                = [Attempt.direct] := by simp [connectAttempts, hm]
            rw [hv]; decide
        | fail c =>
            cases hd : isDnsError c with
            | true =>
                have hv : connectAttempts macProxyDomains hostname (DirectResult.fail c)
                    = [Attempt.direct, Attempt.tunnel] := by
                  simp [connectAttempts, hm, hd]
                rw [hv]; decide
            | false =>
                have hv : connectAttempts macProxyDomains hostname (DirectResult.fail c)
                    = [Attempt.direct] := by simp [connectAttempts, hm, hd]
                rw [hv]; decide

/-- Witness for C4: concrete allowlisted, DNS-failing and
connection-refused destinations. -/
theorem c4_proxy_routing_witness :
    connectAttempts ["bytedance"] "cdn.bytedance.net" DirectResult.success
      = [Attempt.tunnel] ∧
    connectAttempts ["bytedance"] "example.com" DirectResult.success
      = [Attempt.direct] ∧
    connectAttempts ["bytedance"] "example.com" (DirectResult.fail "ENOTFOUND")
      = [Attempt.direct, Attempt.tunnel] ∧
    connectAttempts ["bytedance"] "example.com" (DirectResult.fail "ECONNREFUSED")
      = [Attempt.direct] ∧
    (connectAttempts ["bytedance"] "example.com"
      (DirectResult.fail "ENOTFOUND")).count Attempt.tunnel ≤ 1 :=
  ⟨(c4_proxy_routing ["bytedance"] "cdn.bytedance.net" "x").1 (by decide) _,
   ((c4_proxy_routing ["bytedance"] "example.com" "ENOTFOUND").2.1 (by decide)).1,
   ((c4_proxy_routing ["bytedance"] "example.com" "ENOTFOUND").2.1 (by decide)).2.1
     (by decide),
   ((c4_proxy_routing ["bytedance"] "example.com" "ECONNREFUSED").2.1 (by decide)).2.2
     (by decide),
   (c4_proxy_routing ["bytedance"] "example.com" "x").2.2 _⟩

/-- C5: a `check` that throws a fatal-classified message on its first
invocation makes the poller return `{ready:false, fatalError:true}` after
exactly one invocation of `check` (given a positive timeout and
interval), not after 5 attempts. -/
theorem c5_poller_fatal_short_circuit (check : Nat → Except String Bool)
    (timeout interval : Nat) (m : String)
    (hcheck : check 0 = Except.error m)
    (hfatal : fatalErrors.any (fun e => strContains m e) = true)
    (ht : 0 < timeout) (hi : 0 < interval) :
    pollForCondition check timeout interval = (PollResult.fatalError m, 1) := by
  have hmax : 0 < maxAttemptsFor timeout interval := by
    unfold maxAttemptsFor
    exact Nat.div_pos (by omega) hi
  unfold pollForCondition
  rw [pollAux]
  simp [hmax, hcheck, hfatal]

/-- Witness for C5: a check that always throws a `Target closed` message
short-circuits on the first invocation with the default 30s/1s budget. -/
theorem c5_poller_fatal_short_circuit_witness :
    pollForCondition (fun _ => Except.error "Protocol error: Target closed") 30000 1000
      = (PollResult.fatalError "Protocol error: Target closed", 1) :=
  c5_poller_fatal_short_circuit (fun _ => Except.error "Protocol error: Target closed")
    30000 1000 "Protocol error: Target closed" rfl (by decide) (by decide) (by decide)

/-- Witness for C7 (amended): release at t=60000, timer armed for t=360000,
re-acquire at t=300000 (before the timer fires, within maxAge): same pid,
`cached = true`; firing the timer unacquired evicts. -/
theorem c7_idle_eviction_witness :
    (release 60000 (getBrowser 0 true initialPool).1).idleTimer = some 360000 ∧
    (release 60000 (getBrowser 0 true initialPool).1).inUse = false ∧
    hasInstance (fireIdleTimer (release 60000 (getBrowser 0 true initialPool).1)) = false ∧
    (∀ t al,
      (getBrowser t al (release 60000 (getBrowser 0 true initialPool).1)).1.idleTimer = none) ∧
    (getBrowser 300000 true (release 60000 (getBrowser 0 true initialPool).1)).2.cached = true ∧
    (getBrowser 300000 true (release 60000 (getBrowser 0 true initialPool).1)).2.browser
      = some 0 ∧
    (getBrowser 300000 true (release 60000 (getBrowser 0 true initialPool).1)).2.pid
      = (getBrowser 0 true initialPool).1.pid :=
  c7_idle_eviction ((getBrowser 0 true initialPool).1) 0 60000 300000
    (by decide) (by decide)

end Spec2Proof
